import Mathlib

/-!
Shallow embedding of `src/contracts/Payment_Request_Fhe.sol`
(contract `PaymentRequestFHE`).

Addresses, timestamps, batch ids, request ids and ciphertext handles
(`euint32` handles / `bytes32`) are modelled as `Nat`.  Each external
function of the contract becomes a Lean function from its arguments and
the ambient transaction environment (`msg.sender`, `block.timestamp`)
and the current contract state to a pair of an `Except` outcome and a
resulting state; on every revert path the state at the revert point is
returned, which in the source is the pre-state because every `revert`
in the contract precedes its first storage write (EVM revert semantics
additionally roll back any write, so the translation is faithful either
way).  `keccak256(abi.encode(cts, address(this)))` is modelled as an
injective pairing into `Option`, with `none` playing the role of the
all-zero `bytes32` default storage value, which keccak never produces.
`FHE.checkSignatures` (the external oracle's proof verification, which
reverts on an invalid proof) is modelled as an abstract boolean
predicate passed as a parameter to the callback.  `FHE.requestDecryption`
returns an oracle-assigned request id, modelled as a parameter supplied
by the environment.
-/

namespace PaymentRequestFHE

abbrev Addr := Nat

abbrev Handle := Nat

/-- `keccak256(abi.encode(cts, address(this)))`, modelled as an injective
pairing of its inputs; `none` is the default `bytes32(0)` storage value,
never produced by the hash. -/
abbrev HashV := Option (List Handle × Addr)

def hashCiphertexts (cts : List Handle) (self : Addr) : HashV :=
  some (cts, self)

inductive Err where
  | NotOwner
  | NotProvider
  | PausedErr
  | CooldownActive
  | InvalidBatch
  | InvalidState
  | ReplayDetected
  | DecryptionFailed
  | AlreadyInitialized
  | NotInitialized
  deriving DecidableEq, Repr

inductive Event where
  | ProviderAdded (provider : Addr)
  | ProviderRemoved (provider : Addr)
  | CooldownSet (cooldownSeconds : Nat)
  | BatchOpened (batchId : Nat)
  | BatchClosed (batchId : Nat)
  | PaymentRequestSubmitted (batchId : Nat) (sender : Addr) (encryptedNote : Handle)
  | DecryptionRequested (requestId : Nat) (batchId : Nat)
  | DecryptionCompleted (requestId : Nat) (batchId : Nat) (note : Nat)
  | PausedEvt
  | UnpausedEvt
  deriving DecidableEq, Repr

structure DecryptionContext where
  batchId : Nat
  stateHash : HashV
  processed : Bool
  deriving DecidableEq, Repr

/-- The zero-initialized storage value of a `DecryptionContext` slot:
a mapping entry that was never written. -/
def defaultCtx : DecryptionContext :=
  { batchId := 0, stateHash := none, processed := false }

structure ContractState where
  self : Addr
  owner : Addr
  providers : Addr → Bool
  paused : Bool
  cooldownSeconds : Nat
  lastSubmissionTime : Addr → Nat
  lastDecryptionRequestTime : Addr → Nat
  currentBatchId : Nat
  batchOpen : Bool
  encryptedNotes : Nat → Addr → Handle
  hasSubmitted : Nat → Addr → Bool
  decryptionContexts : Nat → DecryptionContext
  events : List Event

/-- The constructor: the deployer becomes owner and provider (with a
`ProviderAdded` event), cooldown is 60 seconds, batch id 0, no batch open;
all mappings hold their zero defaults.  `self` is `address(this)`. -/
def initState (deployer self : Addr) : ContractState :=
  { self := self
    owner := deployer
    providers := fun a => if a = deployer then true else false
    paused := false
    cooldownSeconds := 60
    lastSubmissionTime := fun _ => 0
    lastDecryptionRequestTime := fun _ => 0
    currentBatchId := 0
    batchOpen := false
    encryptedNotes := fun _ _ => 0
    hasSubmitted := fun _ _ => false
    decryptionContexts := fun _ => defaultCtx
    events := [Event.ProviderAdded deployer] }

abbrev Result := Except Err Unit × ContractState

def addProvider (sender p : Addr) (s : ContractState) : Result :=
  if sender ≠ s.owner then (.error .NotOwner, s)
  else
    (.ok (), { s with
      providers := fun a => if a = p then true else s.providers a
      events := s.events ++ [Event.ProviderAdded p] })

def removeProvider (sender p : Addr) (s : ContractState) : Result :=
  if sender ≠ s.owner then (.error .NotOwner, s)
  else
    (.ok (), { s with
      providers := fun a => if a = p then false else s.providers a
      events := s.events ++ [Event.ProviderRemoved p] })

def setCooldown (sender : Addr) (c : Nat) (s : ContractState) : Result :=
  if sender ≠ s.owner then (.error .NotOwner, s)
  else
    (.ok (), { s with
      cooldownSeconds := c
      events := s.events ++ [Event.CooldownSet c] })

def setPaused (sender : Addr) (b : Bool) (s : ContractState) : Result :=
  if sender ≠ s.owner then (.error .NotOwner, s)
  else
    (.ok (), { s with
      paused := b
      events := s.events ++ [if b then Event.PausedEvt else Event.UnpausedEvt] })

def openBatch (sender : Addr) (s : ContractState) : Result :=
  if sender ≠ s.owner then (.error .NotOwner, s)
  else if s.paused then (.error .PausedErr, s)
  else
    let s1 := if s.batchOpen then { s with currentBatchId := s.currentBatchId + 1 } else s
    (.ok (), { s1 with
      batchOpen := true
      events := s1.events ++ [Event.BatchOpened s1.currentBatchId] })

def closeBatch (sender : Addr) (s : ContractState) : Result :=
  if sender ≠ s.owner then (.error .NotOwner, s)
  else if s.paused then (.error .PausedErr, s)
  else if !s.batchOpen then (.error .InvalidBatch, s)
  else
    (.ok (), { s with
      batchOpen := false
      events := s.events ++ [Event.BatchClosed s.currentBatchId] })

def submitPaymentRequest (sender : Addr) (now : Nat) (batchId : Nat) (note : Handle)
    (s : ContractState) : Result :=
  if !s.providers sender then (.error .NotProvider, s)
  else if s.paused then (.error .PausedErr, s)
  else if now < s.lastSubmissionTime sender + s.cooldownSeconds then (.error .CooldownActive, s)
  else if batchId ≠ s.currentBatchId then (.error .InvalidBatch, s)
  else if !s.batchOpen then (.error .InvalidBatch, s)
  else if s.hasSubmitted batchId sender then (.error .AlreadyInitialized, s)
  else
    (.ok (), { s with
      lastSubmissionTime := fun a => if a = sender then now else s.lastSubmissionTime a
      encryptedNotes := fun b a =>
        if b = batchId ∧ a = sender then note else s.encryptedNotes b a
      hasSubmitted := fun b a =>
        if b = batchId ∧ a = sender then true else s.hasSubmitted b a
      events := s.events ++ [Event.PaymentRequestSubmitted batchId sender note] })

def requestNoteDecryption (sender : Addr) (now : Nat) (batchId : Nat) (provider : Addr)
    (requestId : Nat) (s : ContractState) : Result :=
  if s.paused then (.error .PausedErr, s)
  else if now < s.lastDecryptionRequestTime sender + s.cooldownSeconds then
    (.error .CooldownActive, s)
  else if !s.hasSubmitted batchId provider then (.error .NotInitialized, s)
  else
    let note := s.encryptedNotes batchId provider
    let stateHash := hashCiphertexts [note] s.self
    (.ok (), { s with
      decryptionContexts := fun r =>
        if r = requestId then { batchId := batchId, stateHash := stateHash, processed := false }
        else s.decryptionContexts r
      lastDecryptionRequestTime := fun a => if a = sender then now else s.lastDecryptionRequestTime a
      events := s.events ++ [Event.DecryptionRequested requestId batchId] })

/-- `abi.decode(cleartexts, (uint256))` on a 32-byte word, modelled as
big-endian base-256 decoding. -/
def abiDecodeU256 (bs : List Nat) : Nat :=
  bs.foldl (fun acc b => acc * 256 + b) 0

/-- `myCallback`.  `checkSignatures` stands for the external
`FHE.checkSignatures(requestId, cleartexts, proof)`, which reverts on an
invalid proof (per the spec, surfaced as `DecryptionFailed`).  Note the
source rebuilds the ciphertext array from
`encryptedNotes[decryptionContexts[requestId].batchId][msg.sender]` —
keyed by the *caller*, not by the provider whose note was requested. -/
def myCallback (checkSignatures : Nat → List Nat → List Nat → Bool)
    (sender : Addr) (requestId : Nat) (cleartexts proof : List Nat)
    (s : ContractState) : Result :=
  if (s.decryptionContexts requestId).processed then (.error .ReplayDetected, s)
  else if cleartexts.length ≠ 32 then (.error .DecryptionFailed, s)
  else
    let currentHash :=
      hashCiphertexts [s.encryptedNotes (s.decryptionContexts requestId).batchId sender] s.self
    if currentHash ≠ (s.decryptionContexts requestId).stateHash then (.error .InvalidState, s)
    else if !checkSignatures requestId cleartexts proof then (.error .DecryptionFailed, s)
    else
      let note := abiDecodeU256 cleartexts
      (.ok (), { s with
        decryptionContexts := fun r =>
          if r = requestId then { s.decryptionContexts r with processed := true }
          else s.decryptionContexts r
        events := s.events ++
          [Event.DecryptionCompleted requestId (s.decryptionContexts requestId).batchId note] })

/-- One transaction against the contract: every external mutating entry
point, with its transaction environment packed into the constructor. -/
inductive Op where
  | addProviderOp (sender p : Addr)
  | removeProviderOp (sender p : Addr)
  | setCooldownOp (sender : Addr) (c : Nat)
  | setPausedOp (sender : Addr) (b : Bool)
  | openBatchOp (sender : Addr)
  | closeBatchOp (sender : Addr)
  | submitOp (sender : Addr) (now batchId : Nat) (note : Handle)
  | requestOp (sender : Addr) (now batchId : Nat) (provider : Addr) (requestId : Nat)
  | callbackOp (checkSignatures : Nat → List Nat → List Nat → Bool)
      (sender : Addr) (requestId : Nat) (cleartexts proof : List Nat)

def step : Op → ContractState → Result
  | .addProviderOp sender p, s => addProvider sender p s
  | .removeProviderOp sender p, s => removeProvider sender p s
  | .setCooldownOp sender c, s => setCooldown sender c s
  | .setPausedOp sender b, s => setPaused sender b s
  | .openBatchOp sender, s => openBatch sender s
  | .closeBatchOp sender, s => closeBatch sender s
  | .submitOp sender now batchId note, s => submitPaymentRequest sender now batchId note s
  | .requestOp sender now batchId provider requestId, s =>
      requestNoteDecryption sender now batchId provider requestId s
  | .callbackOp checkSignatures sender requestId cleartexts proof, s =>
      myCallback checkSignatures sender requestId cleartexts proof s

/-- A proof-verification oracle that accepts every proof: used to
instantiate concrete runs in which the oracle's signature check passes. -/
def trueSig : Nat → List Nat → List Nat → Bool := fun _ _ _ => true

/-- Concrete run: deployer 0 (owner and provider) at contract address 1
opens batch 0, then submits ciphertext handle 5 at time 100. -/
def sOpen : ContractState := (openBatch 0 (initState 0 1)).2

def sSub : ContractState := (submitPaymentRequest 0 100 0 5 sOpen).2

/-- Concrete run parameterized by a provider address `p` (assumed distinct
from deployer 0): owner adds `p` as provider, opens batch 0, `p` submits
handle 5 at time 100, then decryption of (batch 0, provider `p`) is
requested at time 200, receiving oracle request id 7. -/
def scnP (p : Addr) : ContractState :=
  let s1 := (addProvider 0 p (initState 0 1)).2
  let s2 := (openBatch 0 s1).2
  let s3 := (submitPaymentRequest p 100 0 5 s2).2
  (requestNoteDecryption 0 200 0 p 7 s3).2

instance : DecidableEq (Except Err Unit) := fun a b =>
  match a, b with
  | .ok (), .ok () => .isTrue rfl
  | .error x, .error y => if h : x = y then .isTrue (by rw [h]) else .isFalse (by simp [h])
  | .ok _, .error _ => .isFalse (by simp)
  | .error _, .ok _ => .isFalse (by simp)

/-! ### Helper lemmas -/

/-- The callback succeeds exactly when: the stored request slot is not yet
processed, the cleartext is 32 bytes, the hash of the *caller's* note slot
for the recorded batch matches the stored state hash, and the oracle
signature check passes. -/
theorem myCallback_ok_iff (chk : Nat → List Nat → List Nat → Bool) (sender requestId : Nat)
    (cleartexts proof : List Nat) (s : ContractState) :
    (myCallback chk sender requestId cleartexts proof s).1 = .ok () ↔
      ((s.decryptionContexts requestId).processed = false ∧
       cleartexts.length = 32 ∧
       hashCiphertexts [s.encryptedNotes (s.decryptionContexts requestId).batchId sender] s.self =
         (s.decryptionContexts requestId).stateHash ∧
       chk requestId cleartexts proof = true) := by
  simp only [myCallback]
  split_ifs with h1 h2 h3 h4 <;> simp_all

/-- A successful callback marks the request processed. -/
theorem myCallback_ok_processed (chk : Nat → List Nat → List Nat → Bool) (sender requestId : Nat)
    (cleartexts proof : List Nat) (s : ContractState)
    (h : (myCallback chk sender requestId cleartexts proof s).1 = .ok ()) :
    ((myCallback chk sender requestId cleartexts proof s).2.decryptionContexts
      requestId).processed = true := by
  simp only [myCallback] at h ⊢
  split_ifs at h ⊢
  simp_all

/-! ### Claims -/

/-- Claim C9: in the state produced by the constructor, the deployer is the
owner and a registered provider (with a `ProviderAdded` event emitted for
the deployer), `cooldownSeconds` is 60, `currentBatchId` is 0, and no batch
is open. -/
theorem C9_constructor_initial_state (deployer self : Addr) :
    (initState deployer self).owner = deployer ∧
    (initState deployer self).providers deployer = true ∧
    (initState deployer self).events = [Event.ProviderAdded deployer] ∧
    (initState deployer self).cooldownSeconds = 60 ∧
    (initState deployer self).currentBatchId = 0 ∧
    (initState deployer self).batchOpen = false := by
  refine ⟨rfl, by simp [initState], rfl, rfl, rfl, rfl⟩

/-- Claim C4: with caller = owner and the system not paused, `openBatch`
succeeds; if the batch is already open it advances `currentBatchId` by one
and leaves the batch open, and if the batch is closed it keeps
`currentBatchId` and opens the batch; hence a second consecutive successful
`openBatch` yields a strictly larger (hence different) batch id. -/
theorem C4_openBatch_advance_rule (sender : Addr) (s : ContractState)
    (hown : sender = s.owner) (hp : s.paused = false) :
    (openBatch sender s).1 = .ok () ∧
    (s.batchOpen = true →
      (openBatch sender s).2.currentBatchId = s.currentBatchId + 1 ∧
      (openBatch sender s).2.batchOpen = true) ∧
    (s.batchOpen = false →
      (openBatch sender s).2.currentBatchId = s.currentBatchId ∧
      (openBatch sender s).2.batchOpen = true) ∧
    (openBatch sender (openBatch sender s).2).1 = .ok () ∧
    (openBatch sender (openBatch sender s).2).2.currentBatchId =
      (openBatch sender s).2.currentBatchId + 1 := by
  subst hown
  cases hb : s.batchOpen <;> simp [openBatch, hp, hb]

/-- Claim C4, witness at the deployed initial state (owner 0, not paused,
batch closed). -/
theorem C4_openBatch_advance_rule_witness :
    (openBatch 0 (initState 0 1)).1 = .ok () ∧
    ((initState 0 1).batchOpen = true →
      (openBatch 0 (initState 0 1)).2.currentBatchId = (initState 0 1).currentBatchId + 1 ∧
      (openBatch 0 (initState 0 1)).2.batchOpen = true) ∧
    ((initState 0 1).batchOpen = false →
      (openBatch 0 (initState 0 1)).2.currentBatchId = (initState 0 1).currentBatchId ∧
      (openBatch 0 (initState 0 1)).2.batchOpen = true) ∧
    (openBatch 0 (openBatch 0 (initState 0 1)).2).1 = .ok () ∧
    (openBatch 0 (openBatch 0 (initState 0 1)).2).2.currentBatchId =
      (openBatch 0 (initState 0 1)).2.currentBatchId + 1 :=
  C4_openBatch_advance_rule 0 (initState 0 1) rfl rfl

/-- Claim C1, counterexample: at the freshly constructed state no
`DecryptionRequest` record exists for request id 0, yet the callback does
not fail with `ReplayDetected` — it fails with `InvalidState` (the default
slot's zero state hash never matches a recomputed hash). -/
theorem C1_counterexample :
    (myCallback trueSig 5 0 (List.replicate 32 0) [] (initState 0 1)).1 = .error .InvalidState ∧
    (myCallback trueSig 5 0 (List.replicate 32 0) [] (initState 0 1)).1 ≠
      .error .ReplayDetected := by
  decide

/-- Claim C1 (amended): if the stored record for `requestId` has
`processed = true`, the callback fails with `ReplayDetected` before any
other validation or state change, whatever the other arguments are; when no
record exists for `requestId` (the slot holds the zero default), the
callback still fails and leaves the state unchanged, but with
`DecryptionFailed` or `InvalidState` rather than `ReplayDetected`; and a
second callback identical to a first successful one fails with
`ReplayDetected` leaving the first call's resulting state unchanged. -/
theorem C1_replay_guard (chk : Nat → List Nat → List Nat → Bool) (sender requestId : Nat)
    (cleartexts proof : List Nat) (s : ContractState) :
    ((s.decryptionContexts requestId).processed = true →
      myCallback chk sender requestId cleartexts proof s = (.error .ReplayDetected, s)) ∧
    (s.decryptionContexts requestId = defaultCtx →
      ((myCallback chk sender requestId cleartexts proof s).1 = .error .DecryptionFailed ∨
       (myCallback chk sender requestId cleartexts proof s).1 = .error .InvalidState) ∧
      (myCallback chk sender requestId cleartexts proof s).2 = s) ∧
    ((myCallback chk sender requestId cleartexts proof s).1 = .ok () →
      myCallback chk sender requestId cleartexts proof
          (myCallback chk sender requestId cleartexts proof s).2 =
        (.error .ReplayDetected, (myCallback chk sender requestId cleartexts proof s).2)) := by
  refine ⟨?_, ?_, ?_⟩
  · intro h
    simp [myCallback, h]
  · intro h
    by_cases hl : cleartexts.length = 32
    · constructor
      · exact Or.inr (by simp [myCallback, h, defaultCtx, hl, hashCiphertexts])
      · simp [myCallback, h, defaultCtx, hl, hashCiphertexts]
    · constructor
      · exact Or.inl (by simp [myCallback, h, defaultCtx, hl])
      · simp [myCallback, h, defaultCtx, hl]
  · intro h
    have hp := myCallback_ok_processed chk sender requestId cleartexts proof s h
    generalize (myCallback chk sender requestId cleartexts proof s).2 = s2 at hp ⊢
    simp [myCallback, hp]

/-- Claim C1, witness: a missing record (request id 9 was never issued in
the concrete run) makes the callback fail without touching the state. -/
theorem C1_replay_guard_witness :
    ((myCallback trueSig 4 9 (List.replicate 32 0) [] (scnP 2)).1 = .error .DecryptionFailed ∨
     (myCallback trueSig 4 9 (List.replicate 32 0) [] (scnP 2)).1 = .error .InvalidState) ∧
    (myCallback trueSig 4 9 (List.replicate 32 0) [] (scnP 2)).2 = scnP 2 :=
  (C1_replay_guard trueSig 4 9 (List.replicate 32 0) [] (scnP 2)).2.1 (by decide)

/-- Claim C8: every operation is all-or-nothing — whenever an operation
returns an error (any of the contract's errors, including `ReplayDetected`
and `InvalidState` in the callback), the resulting observable state (roles,
pause flag, cooldown, batch state, submissions, throttle records,
decryption-request records, events) is exactly the starting state; in the
source every `revert` precedes the first storage write of its function. -/
theorem C8_atomicity (op : Op) (s : ContractState) (e : Err)
    (h : (step op s).1 = .error e) : (step op s).2 = s := by
  cases op <;>
    simp only [step, addProvider, removeProvider, setCooldown, setPaused, openBatch,
      closeBatch, submitPaymentRequest, requestNoteDecryption, myCallback] at h ⊢ <;>
    split_ifs at h ⊢ <;> simp_all

/-- Claim C8, witness: `closeBatch` on the freshly constructed state (no
batch open) fails with `InvalidBatch` and leaves the state unchanged. -/
theorem C8_atomicity_witness :
    (step (Op.closeBatchOp 0) (initState 0 1)).1 = .error .InvalidBatch ∧
    (step (Op.closeBatchOp 0) (initState 0 1)).2 = initState 0 1 :=
  ⟨by decide, C8_atomicity (Op.closeBatchOp 0) (initState 0 1) .InvalidBatch (by decide)⟩

/-- Claim C10: `currentBatchId` never decreases under any operation, and
the only operation that changes it is `openBatch`, which increments it by
exactly one and only when the batch is already open. -/
theorem C10_batchId_monotone (op : Op) (s : ContractState) :
    s.currentBatchId ≤ (step op s).2.currentBatchId ∧
    ((step op s).2.currentBatchId ≠ s.currentBatchId →
      (∃ sender, op = Op.openBatchOp sender) ∧ s.batchOpen = true ∧
      (step op s).2.currentBatchId = s.currentBatchId + 1) := by
  cases op <;>
    simp only [step, addProvider, removeProvider, setCooldown, setPaused, openBatch,
      closeBatch, submitPaymentRequest, requestNoteDecryption, myCallback] <;>
    split_ifs <;> simp_all

/-- Claim C10, witness: `openBatch` while a batch is already open advances
the id from 0 to 1. -/
theorem C10_batchId_monotone_witness :
    sOpen.currentBatchId ≤ (step (Op.openBatchOp 0) sOpen).2.currentBatchId ∧
    ((step (Op.openBatchOp 0) sOpen).2.currentBatchId ≠ sOpen.currentBatchId →
      (∃ sender, Op.openBatchOp 0 = Op.openBatchOp sender) ∧ sOpen.batchOpen = true ∧
      (step (Op.openBatchOp 0) sOpen).2.currentBatchId = sOpen.currentBatchId + 1) :=
  C10_batchId_monotone (Op.openBatchOp 0) sOpen

/-- Claim C7: when not paused and not throttled, `requestNoteDecryption`
fails with `NotInitialized` (and changes nothing) if no submission exists
for `(batchId, targetProvider)`; otherwise it succeeds and stores, under
the oracle-assigned `requestId`, the record with that `batchId`, the hash
of the stored ciphertext handle paired with the contract instance
(`address(this)`), and `processed = false`. -/
theorem C7_requestDecryption_records_request (s : ContractState) (sender : Addr)
    (now batchId : Nat) (provider : Addr) (requestId : Nat)
    (hp : s.paused = false) (hc : s.lastDecryptionRequestTime sender + s.cooldownSeconds ≤ now) :
    (s.hasSubmitted batchId provider = false →
      requestNoteDecryption sender now batchId provider requestId s =
        (.error .NotInitialized, s)) ∧
    (s.hasSubmitted batchId provider = true →
      (requestNoteDecryption sender now batchId provider requestId s).1 = .ok () ∧
      (requestNoteDecryption sender now batchId provider requestId s).2.decryptionContexts
          requestId =
        { batchId := batchId
          stateHash := hashCiphertexts [s.encryptedNotes batchId provider] s.self
          processed := false }) := by
  have hc2 : ¬now < s.lastDecryptionRequestTime sender + s.cooldownSeconds := not_lt.mpr hc
  constructor
  · intro h
    simp [requestNoteDecryption, hp, hc2, h]
  · intro h
    simp [requestNoteDecryption, hp, hc2, h]

/-- Claim C7, witness: after provider 0 submitted handle 5 to batch 0, a
decryption request at time 200 with oracle request id 7 succeeds and stores
the expected record. -/
theorem C7_requestDecryption_records_request_witness :
    ((sSub.hasSubmitted 0 0 = false →
      requestNoteDecryption 0 200 0 0 7 sSub = (.error .NotInitialized, sSub)) ∧
    (sSub.hasSubmitted 0 0 = true →
      (requestNoteDecryption 0 200 0 0 7 sSub).1 = .ok () ∧
      (requestNoteDecryption 0 200 0 0 7 sSub).2.decryptionContexts 7 =
        { batchId := 0
          stateHash := hashCiphertexts [sSub.encryptedNotes 0 0] sSub.self
          processed := false })) :=
  C7_requestDecryption_records_request sSub 0 200 0 0 7 rfl (by decide)

set_option maxHeartbeats 1000000 in
/-- Claim C6: for both throttled action kinds (submission, decryption
request): an accepted action at time `now` requires the actor's last
recorded timestamp plus `cooldownSeconds` to have elapsed and records
`now` as the new timestamp; an attempt inside the window — by a provider
while not paused for submissions, while not paused for decryption
requests — fails with `CooldownActive` and changes nothing; and no
operation other than an accepted action of the same kind by the same actor
ever changes that actor's recorded timestamp for the kind. -/
theorem C6_cooldown_throttling (s : ContractState) (sender : Addr) (now batchId : Nat)
    (note : Handle) (provider : Addr) (requestId : Nat) (op : Op) :
    ((submitPaymentRequest sender now batchId note s).1 = .ok () →
      s.lastSubmissionTime sender + s.cooldownSeconds ≤ now ∧
      (submitPaymentRequest sender now batchId note s).2.lastSubmissionTime sender = now) ∧
    (s.providers sender = true → s.paused = false →
      now < s.lastSubmissionTime sender + s.cooldownSeconds →
      submitPaymentRequest sender now batchId note s = (.error .CooldownActive, s)) ∧
    ((requestNoteDecryption sender now batchId provider requestId s).1 = .ok () →
      s.lastDecryptionRequestTime sender + s.cooldownSeconds ≤ now ∧
      (requestNoteDecryption sender now batchId provider requestId
        s).2.lastDecryptionRequestTime sender = now) ∧
    (s.paused = false → now < s.lastDecryptionRequestTime sender + s.cooldownSeconds →
      requestNoteDecryption sender now batchId provider requestId s =
        (.error .CooldownActive, s)) ∧
    ((step op s).2.lastSubmissionTime sender ≠ s.lastSubmissionTime sender →
      ∃ n b v, op = Op.submitOp sender n b v ∧ (step op s).1 = .ok () ∧
        (step op s).2.lastSubmissionTime sender = n) ∧
    ((step op s).2.lastDecryptionRequestTime sender ≠ s.lastDecryptionRequestTime sender →
      ∃ n b p r, op = Op.requestOp sender n b p r ∧ (step op s).1 = .ok () ∧
        (step op s).2.lastDecryptionRequestTime sender = n) := by
  refine ⟨?_, ?_, ?_, ?_, ?_, ?_⟩
  · simp only [submitPaymentRequest]
    split_ifs with h1 h2 h3 h4 h5 h6 <;> intro h <;> simp_all
  · intro hpr hp hlt
    simp [submitPaymentRequest, hpr, hp, hlt]
  · simp only [requestNoteDecryption]
    split_ifs with h1 h2 h3 <;> intro h <;> simp_all
  · intro hp hlt
    simp [requestNoteDecryption, hp, hlt]
  · intro h
    cases op with
    | submitOp s2 n b v =>
        by_cases hsend : sender = s2
        · subst hsend
          revert h
          simp only [step, submitPaymentRequest]
          split_ifs <;> intro h
          all_goals first
            | exact absurd rfl h
            | exact ⟨n, b, v, rfl, rfl, by simp⟩
        · revert h
          simp only [step, submitPaymentRequest]
          split_ifs <;> intro h
          all_goals first
            | exact absurd rfl h
            | simp [hsend] at h
    | addProviderOp s2 p =>
        revert h
        simp only [step, addProvider]
        split_ifs <;> intro h <;> exact absurd rfl h
    | removeProviderOp s2 p =>
        revert h
        simp only [step, removeProvider]
        split_ifs <;> intro h <;> exact absurd rfl h
    | setCooldownOp s2 c =>
        revert h
        simp only [step, setCooldown]
        split_ifs <;> intro h <;> exact absurd rfl h
    | setPausedOp s2 b =>
        revert h
        simp only [step, setPaused]
        split_ifs <;> intro h <;> exact absurd rfl h
    | openBatchOp s2 =>
        revert h
        simp only [step, openBatch]
        split_ifs <;> intro h <;> exact absurd rfl h
    | closeBatchOp s2 =>
        revert h
        simp only [step, closeBatch]
        split_ifs <;> intro h <;> exact absurd rfl h
    | requestOp s2 n b p r =>
        revert h
        simp only [step, requestNoteDecryption]
        split_ifs <;> intro h <;> exact absurd rfl h
    | callbackOp chk s2 r ct pf =>
        revert h
        simp only [step, myCallback]
        split_ifs <;> intro h <;> exact absurd rfl h
  · intro h
    cases op with
    | requestOp s2 n b p r =>
        by_cases hsend : sender = s2
        · subst hsend
          revert h
          simp only [step, requestNoteDecryption]
          split_ifs <;> intro h
          all_goals first
            | exact absurd rfl h
            | exact ⟨n, b, p, r, rfl, rfl, by simp⟩
        · revert h
          simp only [step, requestNoteDecryption]
          split_ifs <;> intro h
          all_goals first
            | exact absurd rfl h
            | simp [hsend] at h
    | addProviderOp s2 p =>
        revert h
        simp only [step, addProvider]
        split_ifs <;> intro h <;> exact absurd rfl h
    | removeProviderOp s2 p =>
        revert h
        simp only [step, removeProvider]
        split_ifs <;> intro h <;> exact absurd rfl h
    | setCooldownOp s2 c =>
        revert h
        simp only [step, setCooldown]
        split_ifs <;> intro h <;> exact absurd rfl h
    | setPausedOp s2 b =>
        revert h
        simp only [step, setPaused]
        split_ifs <;> intro h <;> exact absurd rfl h
    | openBatchOp s2 =>
        revert h
        simp only [step, openBatch]
        split_ifs <;> intro h <;> exact absurd rfl h
    | closeBatchOp s2 =>
        revert h
        simp only [step, closeBatch]
        split_ifs <;> intro h <;> exact absurd rfl h
    | submitOp s2 n b v =>
        revert h
        simp only [step, submitPaymentRequest]
        split_ifs <;> intro h <;> exact absurd rfl h
    | callbackOp chk s2 r ct pf =>
        revert h
        simp only [step, myCallback]
        split_ifs <;> intro h <;> exact absurd rfl h

/-- Claim C6, witness: at the concrete run, provider 0 attempting a second
submission at time 130 — 30 seconds after the accepted one at time 100,
under the 60-second cooldown — fails with `CooldownActive` and leaves the
state unchanged. -/
theorem C6_cooldown_throttling_witness :
    submitPaymentRequest 0 130 0 6 sSub = (.error .CooldownActive, sSub) :=
  (C6_cooldown_throttling sSub 0 130 0 6 0 0 (Op.openBatchOp 0)).2.1
    (by decide) (by decide) (by decide)

/-- Claim C5, counterexample: provider 0's second submission to batch 0,
sent 30 seconds after the accepted one under the 60-second cooldown, fails
— but with `CooldownActive`, not `AlreadyInitialized`, because the
cooldown check precedes the duplicate-submission check. -/
theorem C5_counterexample :
    sSub.hasSubmitted 0 0 = true ∧
    (submitPaymentRequest 0 130 0 6 sSub).1 = .error .CooldownActive ∧
    (submitPaymentRequest 0 130 0 6 sSub).1 ≠ .error .AlreadyInitialized := by
  decide

/-- Claim C5 (amended): once a submission is recorded for `(B, P)`, no
operation ever clears the flag or changes the stored encrypted value for
`(B, P)`, and every later `submitPaymentRequest` by `P` for batch `B`
fails and leaves the state unchanged; the error is `AlreadyInitialized`
whenever the earlier provider, pause, cooldown and batch checks pass
(otherwise the earlier check's error, e.g. `CooldownActive`, is raised
first). -/
theorem C5_single_submission_per_slot (s : ContractState) (op : Op) (sender : Addr)
    (now batchId : Nat) (note : Handle)
    (h : s.hasSubmitted batchId sender = true) :
    (step op s).2.hasSubmitted batchId sender = true ∧
    (step op s).2.encryptedNotes batchId sender = s.encryptedNotes batchId sender ∧
    (∃ e, (submitPaymentRequest sender now batchId note s).1 = .error e) ∧
    (submitPaymentRequest sender now batchId note s).2 = s ∧
    (s.providers sender = true → s.paused = false →
      s.lastSubmissionTime sender + s.cooldownSeconds ≤ now →
      batchId = s.currentBatchId → s.batchOpen = true →
      (submitPaymentRequest sender now batchId note s).1 = .error .AlreadyInitialized) := by
  refine ⟨?_, ?_, ?_, ?_, ?_⟩
  · cases op with
    | submitOp s2 n b v =>
        simp only [step, submitPaymentRequest]
        split_ifs with h1 h2 h3 h4 h5 h6
        · exact h
        · exact h
        · exact h
        · exact h
        · exact h
        · exact h
        · by_cases hc : batchId = b ∧ sender = s2
          · obtain ⟨hb, hs⟩ := hc
            subst hb; subst hs
            exact absurd h h6
          · simpa [hc] using h
    | addProviderOp s2 p =>
        simp only [step, addProvider]
        split_ifs <;> exact h
    | removeProviderOp s2 p =>
        simp only [step, removeProvider]
        split_ifs <;> exact h
    | setCooldownOp s2 c =>
        simp only [step, setCooldown]
        split_ifs <;> exact h
    | setPausedOp s2 b =>
        simp only [step, setPaused]
        split_ifs <;> exact h
    | openBatchOp s2 =>
        simp only [step, openBatch]
        split_ifs <;> exact h
    | closeBatchOp s2 =>
        simp only [step, closeBatch]
        split_ifs <;> exact h
    | requestOp s2 n b p r =>
        simp only [step, requestNoteDecryption]
        split_ifs <;> exact h
    | callbackOp chk s2 r ct pf =>
        simp only [step, myCallback]
        split_ifs <;> exact h
  · cases op with
    | submitOp s2 n b v =>
        simp only [step, submitPaymentRequest]
        split_ifs with h1 h2 h3 h4 h5 h6
        · rfl
        · rfl
        · rfl
        · rfl
        · rfl
        · rfl
        · by_cases hc : batchId = b ∧ sender = s2
          · obtain ⟨hb, hs⟩ := hc
            subst hb; subst hs
            exact absurd h h6
          · simp [hc]
    | addProviderOp s2 p =>
        simp only [step, addProvider]
        split_ifs <;> rfl
    | removeProviderOp s2 p =>
        simp only [step, removeProvider]
        split_ifs <;> rfl
    | setCooldownOp s2 c =>
        simp only [step, setCooldown]
        split_ifs <;> rfl
    | setPausedOp s2 b =>
        simp only [step, setPaused]
        split_ifs <;> rfl
    | openBatchOp s2 =>
        simp only [step, openBatch]
        split_ifs <;> rfl
    | closeBatchOp s2 =>
        simp only [step, closeBatch]
        split_ifs <;> rfl
    | requestOp s2 n b p r =>
        simp only [step, requestNoteDecryption]
        split_ifs <;> rfl
    | callbackOp chk s2 r ct pf =>
        simp only [step, myCallback]
        split_ifs <;> rfl
  · simp only [submitPaymentRequest]
    split_ifs <;> simp_all
  · simp only [submitPaymentRequest]
    split_ifs <;> simp_all
  · intro hpr hp hcd hb hopen
    have hcd2 : ¬now < s.lastSubmissionTime sender + s.cooldownSeconds := not_lt.mpr hcd
    subst hb
    simp [submitPaymentRequest, hpr, hp, hcd2, hopen, h]

/-- Claim C5, witness: after the accepted submission for (batch 0,
provider 0), a retry at time 200 — past the cooldown, with the batch still
open — fails with `AlreadyInitialized` and leaves the state unchanged, and
the stored value survives an unrelated operation. -/
theorem C5_single_submission_per_slot_witness :
    (step (Op.openBatchOp 0) sSub).2.hasSubmitted 0 0 = true ∧
    (step (Op.openBatchOp 0) sSub).2.encryptedNotes 0 0 = sSub.encryptedNotes 0 0 ∧
    (submitPaymentRequest 0 200 0 9 sSub).2 = sSub ∧
    (submitPaymentRequest 0 200 0 9 sSub).1 = .error .AlreadyInitialized := by
  have h := C5_single_submission_per_slot sSub (Op.openBatchOp 0) 0 200 0 9 (by decide)
  exact ⟨h.1, h.2.1, h.2.2.2.1,
    h.2.2.2.2 (by decide) (by decide) (by decide) (by decide) (by decide)⟩

/-- Claim C2 (code bug), evaluation at the failing input: in the concrete
run, the ciphertext slot for (batch 0, provider 2) is unchanged since the
decryption request was issued — the stored `stateHash` still equals the
hash of the current slot content — yet a callback from the oracle address
9 is rejected with `InvalidState`, because the source recomputes the hash
from `encryptedNotes[batchId][msg.sender]`, keyed by the callback caller
rather than by the provider whose note was requested. -/
theorem C2_callback_keyed_on_caller :
    ((scnP 2).decryptionContexts 7).stateHash =
      hashCiphertexts [(scnP 2).encryptedNotes 0 2] (scnP 2).self ∧
    (myCallback trueSig 9 7 (List.replicate 32 0) [] (scnP 2)).1 = .error .InvalidState := by
  decide

/-- Claim C3, counterexample: no address can serve as "the oracle" such
that all other callers are rejected — for any candidate oracle address,
some other caller can successfully invoke the callback and finalize
(set `processed = true` for) a decryption request. -/
theorem C3_counterexample :
    ¬∃ oracleAddr : Addr, ∀ (chk : Nat → List Nat → List Nat → Bool) (caller : Addr)
        (requestId : Nat) (cleartexts proof : List Nat) (s : ContractState),
        caller ≠ oracleAddr →
        ¬((myCallback chk caller requestId cleartexts proof s).1 = .ok () ∧
          ((myCallback chk caller requestId cleartexts proof
            s).2.decryptionContexts requestId).processed = true) := by
  rintro ⟨o, hall⟩
  by_cases ho : o = 2
  · exact hall trueSig 3 7 (List.replicate 32 0) [] (scnP 3)
      (by subst ho; decide) (by decide)
  · exact hall trueSig 2 7 (List.replicate 32 0) [] (scnP 2)
      (fun heq => ho heq.symm) (by decide)

/-- Claim C3 (amended): `myCallback` performs no caller authentication —
its outcome for any caller is determined solely by the replay flag, the
cleartext length, the state-hash comparison (computed over the *caller's*
own slot for the recorded batch) and the oracle signature check; any
caller passing those checks finalizes the request. -/
theorem C3_no_caller_authentication (chk : Nat → List Nat → List Nat → Bool)
    (sender requestId : Nat) (cleartexts proof : List Nat) (s : ContractState) :
    ((myCallback chk sender requestId cleartexts proof s).1 = .ok () ↔
      ((s.decryptionContexts requestId).processed = false ∧
       cleartexts.length = 32 ∧
       hashCiphertexts [s.encryptedNotes (s.decryptionContexts requestId).batchId sender]
           s.self = (s.decryptionContexts requestId).stateHash ∧
       chk requestId cleartexts proof = true)) ∧
    ((myCallback chk sender requestId cleartexts proof s).1 = .ok () →
      ((myCallback chk sender requestId cleartexts proof s).2.decryptionContexts
        requestId).processed = true) :=
  ⟨myCallback_ok_iff chk sender requestId cleartexts proof s,
   myCallback_ok_processed chk sender requestId cleartexts proof s⟩

/-- Claim C3, witness: the non-oracle caller 2 (the submitting provider)
successfully finalizes request 7 in the concrete run. -/
theorem C3_no_caller_authentication_witness :
    (myCallback trueSig 2 7 (List.replicate 32 0) [] (scnP 2)).1 = .ok () ∧
    ((myCallback trueSig 2 7 (List.replicate 32 0) []
      (scnP 2)).2.decryptionContexts 7).processed = true := by
  have h := C3_no_caller_authentication trueSig 2 7 (List.replicate 32 0) [] (scnP 2)
  have hok : (myCallback trueSig 2 7 (List.replicate 32 0) [] (scnP 2)).1 = .ok () :=
    h.1.mpr (by decide)
  exact ⟨hok, h.2 hok⟩

end PaymentRequestFHE
